import Mathlib

/-!
# LWindow (36_multiple_windows/LWindow.go)

A shallow embedding of the window wrapper of the multiple-windows lesson.

* Pointers to native objects (`*sdl.Window`, `*sdl.Renderer`) are `Option Nat`:
  `none` is Go's `nil`, `some h` a non-nil pointer to native object `h`.
* A Go `error` is `Option String`: `none` is `nil`, `some s` an error whose
  `Error()` text is `s`.
* The native library is outside the repository.  Every value a library call
  returns to the wrapper is taken from a record `Lib`, one field per call site
  family, so that a statement quantified over `Lib` covers every outcome of the
  native calls.  Each operation consults each field at most once.
* Every operation returns the wrapper after the call, the returned error and
  the list of native calls it made, in program order.
-/

namespace LWindow36

/-! ## Constants -/

/-- The constant `sdlFalse` of LWindow.go. -/
def sdlFalse : Nat := 0

/-- The constant `sdlTrue` of LWindow.go. -/
def sdlTrue : Nat := 1

/-- Library constant `sdl.WINDOWPOS_UNDEFINED`. -/
def WINDOWPOS_UNDEFINED : Int := 0x1FFF0000

/-- Library constant `sdl.WINDOW_SHOWN`. -/
def WINDOW_SHOWN : Nat := 0x4

/-- Library constant `sdl.WINDOW_RESIZABLE`. -/
def WINDOW_RESIZABLE : Nat := 0x20

/-- Library constant `sdl.RENDERER_ACCELERATED`. -/
def RENDERER_ACCELERATED : Nat := 0x2

/-- Library constant `sdl.RENDERER_PRESENTVSYNC`. -/
def RENDERER_PRESENTVSYNC : Nat := 0x4

/-- Library constant `sdl.K_RETURN`. -/
def K_RETURN : Int := 13

/-- Library constant `sdl.WINDOWEVENT_SHOWN`. -/
def WINDOWEVENT_SHOWN : Nat := 1
/-- Library constant `sdl.WINDOWEVENT_HIDDEN`. -/
def WINDOWEVENT_HIDDEN : Nat := 2
/-- Library constant `sdl.WINDOWEVENT_EXPOSED`. -/
def WINDOWEVENT_EXPOSED : Nat := 3
/-- Library constant `sdl.WINDOWEVENT_SIZE_CHANGED`. -/
def WINDOWEVENT_SIZE_CHANGED : Nat := 6
/-- Library constant `sdl.WINDOWEVENT_MINIMIZED`. -/
def WINDOWEVENT_MINIMIZED : Nat := 7
/-- Library constant `sdl.WINDOWEVENT_MAXIMIZED`. -/
def WINDOWEVENT_MAXIMIZED : Nat := 8
/-- Library constant `sdl.WINDOWEVENT_RESTORED`. -/
def WINDOWEVENT_RESTORED : Nat := 9
/-- Library constant `sdl.WINDOWEVENT_ENTER`. -/
def WINDOWEVENT_ENTER : Nat := 10
/-- Library constant `sdl.WINDOWEVENT_LEAVE`. -/
def WINDOWEVENT_LEAVE : Nat := 11
/-- Library constant `sdl.WINDOWEVENT_FOCUS_GAINED`. -/
def WINDOWEVENT_FOCUS_GAINED : Nat := 12
/-- Library constant `sdl.WINDOWEVENT_FOCUS_LOST`. -/
def WINDOWEVENT_FOCUS_LOST : Nat := 13
/-- Library constant `sdl.WINDOWEVENT_CLOSE`. -/
def WINDOWEVENT_CLOSE : Nat := 14

/-! ## Data model -/

/-- The struct `LWindow`: two native handles, the window identifier (uint32),
the dimensions (int32) and the five flags. -/
structure LWindow where
  mWindow : Option Nat
  mRenderer : Option Nat
  mWindowID : Nat
  mWidth : Int
  mHeight : Int
  mMouseFocus : Bool
  mKeyboardFocus : Bool
  mFullScreen : Bool
  mMinimized : Bool
  mShown : Bool
  deriving DecidableEq, Repr

/-- The zero value of the struct, as `var w LWindow` or `LWindow{}` gives it. -/
def zeroValue : LWindow :=
  { mWindow := none, mRenderer := none, mWindowID := 0, mWidth := 0, mHeight := 0,
    mMouseFocus := false, mKeyboardFocus := false, mFullScreen := false,
    mMinimized := false, mShown := false }

/-- An `sdl.Event` as the library delivers it.  The Go dynamic type of an event
fixes what `GetType()` returns: a `*sdl.WindowEvent` has type `sdl.WINDOWEVENT`,
a `*sdl.KeyboardEvent` has type `sdl.KEYDOWN` or `sdl.KEYUP`; `other` stands for
an event of any other type.  Only the fields `HandleEvent` reads are kept. -/
inductive Event where
  | window (WindowID : Nat) (Event : Nat) (Data1 Data2 : Int)
  | keyDown (WindowID : Nat) (Sym : Int)
  | keyUp (WindowID : Nat) (Sym : Int)
  | other
  deriving DecidableEq, Repr

/-- One call into the native library, with its arguments and, where the call
returns something, what it returned (`ok = true` for a nil error). -/
inductive Call where
  | createWindow (title : String) (x y w h : Int) (flags : Nat) (res : Option Nat)
  | createRenderer (window : Option Nat) (index : Int) (flags : Nat) (res : Option Nat)
  | destroyWindow (window : Option Nat) (ok : Bool)
  | setDrawColor (renderer : Option Nat) (r g b a : Nat) (ok : Bool)
  | getID (window : Option Nat) (id : Nat) (ok : Bool)
  | present (renderer : Option Nat)
  | clear (renderer : Option Nat) (ok : Bool)
  | hide (window : Option Nat)
  | showWindow (window : Option Nat)
  | raise (window : Option Nat)
  | setTitle (window : Option Nat) (title : String)
  | setFullscreen (window : Option Nat) (flags : Nat) (ok : Bool)
  deriving DecidableEq, Repr

/-- What the native library returns to one operation.  `sdl.CreateWindow` and
`sdl.CreateRenderer` return either a non-nil handle and a nil error, or a nil
handle and an error; `GetID` returns an identifier and an error; the other
fields are the error returned by the call (`none` for nil). -/
structure Lib where
  createWindow : Except String Nat
  createRenderer : Except String Nat
  destroy : Option String
  setDrawColor : Option String
  getID : Nat × Option String
  clear : Option String
  setFullscreen : Option String

/-- What an operation leaves behind: the wrapper, the returned error and the
native calls made. -/
structure Outcome where
  state : LWindow
  err : Option String
  calls : List Call
  deriving DecidableEq, Repr

/-! ## Formatting helpers of package fmt -/

/-- The call `fmt.Errorf(msg + "%v", err)`: the text of `err` replaces the verb. -/
def Errorf (msg : String) (err : String) : String :=
  msg ++ err

/-- An operand of `fmt.Fprint`: a string, or a value of another kind already
rendered in its default format. -/
inductive Operand where
  | str (s : String)
  | val (rendered : String)
  deriving DecidableEq, Repr

/-- The text of an operand. -/
def Operand.text : Operand → String
  | .str s => s
  | .val s => s

/-- Whether the operand is a string. -/
def Operand.isString : Operand → Bool
  | .str _ => true
  | .val _ => false

/-- The function `fmt.Fprint` into an empty buffer: the operands in their
default formats, a space added between two operands when neither is a string. -/
def Fprint : List Operand → String
  | [] => ""
  | [a] => a.text
  | a :: b :: rest =>
    a.text ++ (if !a.isString && !b.isString then " " else "") ++ Fprint (b :: rest)

/-! ## Operations -/

/-- The method `Init`. -/
def Init (screenWitdh screenHeight : Int) (lib : Lib) (w : LWindow) : Outcome :=
  let cw (res : Option Nat) : Call :=
    Call.createWindow "SDL Tutorial" WINDOWPOS_UNDEFINED WINDOWPOS_UNDEFINED
      screenWitdh screenHeight (WINDOW_SHOWN ||| WINDOW_RESIZABLE) res
  match lib.createWindow with
  | .error err =>
    { state := { w with mWindow := none }
      err := some (Errorf "could not create window: " err)
      calls := [cw none] }
  | .ok win =>
    let w1 : LWindow :=
      { w with mWindow := some win, mMouseFocus := true, mKeyboardFocus := true,
               mWidth := screenWitdh, mHeight := screenHeight }
    let cr (res : Option Nat) : Call :=
      Call.createRenderer w1.mWindow (-1) (RENDERER_ACCELERATED ||| RENDERER_PRESENTVSYNC) res
    match lib.createRenderer with
    | .error err =>
      let w2 : LWindow := { w1 with mRenderer := none }
      match lib.destroy with
      | some _dErr =>
        { state := w2
          err := some (Errorf "could not destroy window after failing renderer creation: " err)
          calls := [cw (some win), cr none, Call.destroyWindow w2.mWindow false] }
      | none =>
        { state := { w2 with mWindow := none }
          err := some (Errorf "could not create renderer for window: " err)
          calls := [cw (some win), cr none, Call.destroyWindow w2.mWindow true] }
    | .ok ren =>
      let w2 : LWindow := { w1 with mRenderer := some ren }
      let sdc : Call := Call.setDrawColor w2.mRenderer 255 255 255 255 lib.setDrawColor.isNone
      let w3 : LWindow := { w2 with mWindowID := lib.getID.1 }
      let gid : Call := Call.getID w2.mWindow lib.getID.1 lib.getID.2.isNone
      match lib.getID.2 with
      | some err =>
        { state := w3
          err := some (Errorf "could not grab window ID: " err)
          calls := [cw (some win), cr (some ren), sdc, gid] }
      | none =>
        { state := { w3 with mShown := true }
          err := none
          calls := [cw (some win), cr (some ren), sdc, gid] }

/-- The switch statement of `HandleEvent` over `wEvent.Event`: the wrapper after
it, the caption update flag and the native calls made. -/
def windowSwitch (w : LWindow) (ev : Nat) (data1 data2 : Int) : LWindow × Bool × List Call :=
  if ev = WINDOWEVENT_SHOWN then ({ w with mShown := true }, false, [])
  else if ev = WINDOWEVENT_HIDDEN then ({ w with mShown := false }, false, [])
  else if ev = WINDOWEVENT_SIZE_CHANGED then
    ({ w with mWidth := data1, mHeight := data2 }, false, [Call.present w.mRenderer])
  else if ev = WINDOWEVENT_EXPOSED then (w, false, [Call.present w.mRenderer])
  else if ev = WINDOWEVENT_ENTER then ({ w with mMouseFocus := true }, true, [])
  else if ev = WINDOWEVENT_LEAVE then ({ w with mMouseFocus := false }, true, [])
  else if ev = WINDOWEVENT_FOCUS_GAINED then ({ w with mKeyboardFocus := true }, true, [])
  else if ev = WINDOWEVENT_FOCUS_LOST then ({ w with mKeyboardFocus := false }, true, [])
  else if ev = WINDOWEVENT_MINIMIZED then ({ w with mMinimized := true }, false, [])
  else if ev = WINDOWEVENT_MAXIMIZED then ({ w with mMinimized := false }, false, [])
  else if ev = WINDOWEVENT_RESTORED then ({ w with mMinimized := false }, false, [])
  else if ev = WINDOWEVENT_CLOSE then (w, false, [Call.hide w.mWindow])
  else (w, false, [])

/-- The caption built when `updateCaption` is set. -/
def caption (w : LWindow) : String :=
  let mouseFocus := if w.mMouseFocus then "On" else "Off"
  let keyboardFocus := if w.mKeyboardFocus then "On" else "Off"
  Fprint [Operand.str "SDL Tutorial - MouseFocus:", Operand.str mouseFocus,
          Operand.str keyboardFocus]

/-- The method `HandleEvent`. -/
def HandleEvent (lib : Lib) (w : LWindow) (e : Event) : Outcome :=
  match e with
  | .window wid ev data1 data2 =>
    if wid = w.mWindowID then
      match windowSwitch w ev data1 data2 with
      | (w1, updateCaption, calls) =>
        if updateCaption then
          { state := w1, err := none, calls := calls ++ [Call.setTitle w1.mWindow (caption w1)] }
        else
          { state := w1, err := none, calls := calls }
    else
      { state := w, err := none, calls := [] }
  | .keyDown _ sym =>
    if sym = K_RETURN then
      if w.mFullScreen then
        match lib.setFullscreen with
        | some err =>
          { state := w
            err := some (Errorf "could not unset window from fullscreen: " err)
            calls := [Call.setFullscreen w.mWindow sdlFalse false] }
        | none =>
          { state := { w with mFullScreen := false }
            err := none
            calls := [Call.setFullscreen w.mWindow sdlFalse true] }
      else
        match lib.setFullscreen with
        | some err =>
          { state := w
            err := some (Errorf "could not set window to fullscreen: " err)
            calls := [Call.setFullscreen w.mWindow sdlTrue false] }
        | none =>
          { state := { w with mFullScreen := true, mMinimized := false }
            err := none
            calls := [Call.setFullscreen w.mWindow sdlTrue true] }
    else
      { state := w, err := none, calls := [] }
  | .keyUp _ _ => { state := w, err := none, calls := [] }
  | .other => { state := w, err := none, calls := [] }

/-- The method `Focus`; it returns no error. -/
def Focus (w : LWindow) : Outcome :=
  { state := w
    err := none
    calls := (if !w.mShown then [Call.showWindow w.mWindow] else []) ++ [Call.raise w.mWindow] }

/-- The method `Render`. -/
def Render (lib : Lib) (w : LWindow) : Outcome :=
  if !w.mMinimized then
    match lib.setDrawColor with
    | some err =>
      { state := w
        err := some (Errorf "could not set draw color for renderer: " err)
        calls := [Call.setDrawColor w.mRenderer 255 255 255 255 false] }
    | none =>
      match lib.clear with
      | some _err =>
        { state := w
          err := some "could not clear renderer"
          calls := [Call.setDrawColor w.mRenderer 255 255 255 255 true,
                    Call.clear w.mRenderer false] }
      | none =>
        { state := w
          err := none
          calls := [Call.setDrawColor w.mRenderer 255 255 255 255 true,
                    Call.clear w.mRenderer true, Call.present w.mRenderer] }
  else
    { state := w, err := none, calls := [] }

/-- The method `MWidth`. -/
def MWidth (w : LWindow) : Int := w.mWidth

/-- The method `MHeight`. -/
def MHeight (w : LWindow) : Int := w.mHeight

/-- The method `HasMouseFocus`. -/
def HasMouseFocus (w : LWindow) : Bool := w.mMouseFocus

/-- The method `HasKeyboardFocus`. -/
def HasKeyboardFocus (w : LWindow) : Bool := w.mKeyboardFocus

/-- The method `IsMinimized`. -/
def IsMinimized (w : LWindow) : Bool := w.mMinimized

/-- The method `IsShown`. -/
def IsShown (w : LWindow) : Bool := w.mShown

/-- The method `Free`. -/
def Free (lib : Lib) (w : LWindow) : Outcome :=
  let cleared : LWindow :=
    { w with mMouseFocus := false, mKeyboardFocus := false, mWidth := 0, mHeight := 0 }
  match w.mWindow with
  | some _ =>
    match lib.destroy with
    | some err =>
      { state := w
        err := some (Errorf "could not destroy window: " err)
        calls := [Call.destroyWindow w.mWindow false] }
    | none =>
      { state := cleared, err := none, calls := [Call.destroyWindow w.mWindow true] }
  | none =>
    { state := cleared, err := none, calls := [] }

/-! ## Sequences of calls -/

/-- One call of a method of the wrapper, with what the library answers to it. -/
inductive Op where
  | init (lib : Lib)
  | handleEvent (lib : Lib) (e : Event)
  | render (lib : Lib)
  | focus
  | free (lib : Lib)

/-- The wrapper after one method call. -/
def step (screenWitdh screenHeight : Int) (w : LWindow) : Op → LWindow
  | .init lib => (Init screenWitdh screenHeight lib w).state
  | .handleEvent lib e => (HandleEvent lib w e).state
  | .render lib => (Render lib w).state
  | .focus => (Focus w).state
  | .free lib => (Free lib w).state

/-- The wrapper after a sequence of method calls, first call first. -/
def run (screenWitdh screenHeight : Int) (w : LWindow) (ops : List Op) : LWindow :=
  ops.foldl (step screenWitdh screenHeight) w

/-- Whether a create call returned a handle. -/
def created : Except String Nat → Bool
  | .ok _ => true
  | .error _ => false

/-- Whether a call is acceptable for the restricted invariant: an `Init` call is
made on a wrapper without a renderer, or its window creation succeeds. -/
def initGuard (w : LWindow) : Op → Bool
  | .init lib => w.mRenderer.isNone || created lib.createWindow
  | _ => true

/-- Whether every call of the sequence passes `initGuard` in the state it is made in. -/
def guarded (screenWitdh screenHeight : Int) : LWindow → List Op → Bool
  | _, [] => true
  | w, op :: rest =>
    initGuard w op && guarded screenWitdh screenHeight (step screenWitdh screenHeight w op) rest

/-! ## Reading a list of native calls -/

/-- The windows the calls created. -/
def createdWindows (calls : List Call) : List Nat :=
  calls.filterMap fun c =>
    match c with
    | .createWindow _ _ _ _ _ _ (some h) => some h
    | _ => none

/-- The renderers the calls created. -/
def createdRenderers (calls : List Call) : List Nat :=
  calls.filterMap fun c =>
    match c with
    | .createRenderer _ _ _ (some h) => some h
    | _ => none

/-- The windows the calls destroyed. -/
def destroyedWindows (calls : List Call) : List Nat :=
  calls.filterMap fun c =>
    match c with
    | .destroyWindow (some h) true => some h
    | _ => none

/-- The titles the calls set, each with the window it was set on. -/
def titlesSet (calls : List Call) : List (Option Nat × String) :=
  calls.filterMap fun c =>
    match c with
    | .setTitle win t => some (win, t)
    | _ => none

/-- An error message contains the text of a library error. -/
def wraps (msg libErr : String) : Prop :=
  libErr.data <:+: msg.data

instance (msg libErr : String) : Decidable (wraps msg libErr) :=
  inferInstanceAs (Decidable (libErr.data <:+: msg.data))

/-! ## Sample inputs -/

/-- A library whose every call succeeds: window 1, renderer 2, identifier 7. -/
def libOk : Lib :=
  { createWindow := .ok 1, createRenderer := .ok 2, destroy := none, setDrawColor := none,
    getID := (7, none), clear := none, setFullscreen := none }

/-- A wrapper as a successful `Init` leaves it. -/
def opened : LWindow :=
  { mWindow := some 1, mRenderer := some 2, mWindowID := 7, mWidth := 640, mHeight := 480,
    mMouseFocus := true, mKeyboardFocus := true, mFullScreen := false,
    mMinimized := false, mShown := true }

/-- A library whose window creation succeeds and whose renderer creation fails. -/
def libNoRenderer : Lib :=
  { libOk with createRenderer := .error "no renderer" }

/-- A library whose window creation fails. -/
def libNoWindow : Lib :=
  { libOk with createWindow := .error "no video device" }

/-- A library whose `Clear` fails. -/
def libNoClear : Lib :=
  { libOk with clear := some "Invalid renderer" }

/-- A library whose `SetFullscreen` fails. -/
def libNoFullscreen : Lib :=
  { libOk with setFullscreen := some "Invalid window" }

/-- A library whose `SetDrawColor` fails. -/
def libNoDrawColor : Lib :=
  { libOk with setDrawColor := some "Invalid renderer" }

/-- A library whose `GetID` fails. -/
def libNoID : Lib :=
  { libOk with getID := (0, some "Invalid window") }

/-- A library whose `Destroy` fails. -/
def libNoDestroy : Lib :=
  { libOk with destroy := some "Invalid window" }

end LWindow36

/-! ## Theorems -/

namespace LWindow36

/-! ### Init -/

/-- C1, as written, fails: on the zero-value wrapper, with window creation
succeeding and renderer creation failing, `Init` returns an error and yet has set
the mouse-focus and keyboard-focus flags, which were false, to true. -/
theorem Init_error_sets_focus_flags :
    (Init 640 480 libNoRenderer zeroValue).err
        = some "could not create renderer for window: no renderer" ∧
      zeroValue.mMouseFocus = false ∧ zeroValue.mKeyboardFocus = false ∧
      (Init 640 480 libNoRenderer zeroValue).state.mMouseFocus = true ∧
      (Init 640 480 libNoRenderer zeroValue).state.mKeyboardFocus = true := by
  decide

/-- C1, amended: when window creation or renderer creation fails, `Init` returns
an error, has created no renderer and leaves the shown flag as it was; the
renderer handle is nil if it was nil before or window creation succeeded; unless
the cleanup `Destroy` itself fails, every window `Init` created has been
destroyed and the window handle is nil; if window creation failed the focus
flags and dimensions are untouched, and if it succeeded both focus flags are
true. -/
theorem Init_create_failure_cleanup (screenWitdh screenHeight : Int) (lib : Lib) (w : LWindow)
    (hfail : created lib.createWindow = false ∨ created lib.createRenderer = false) :
    (Init screenWitdh screenHeight lib w).err ≠ none ∧
      createdRenderers (Init screenWitdh screenHeight lib w).calls = [] ∧
      (Init screenWitdh screenHeight lib w).state.mShown = w.mShown ∧
      (w.mRenderer = none ∨ created lib.createWindow = true →
        (Init screenWitdh screenHeight lib w).state.mRenderer = none) ∧
      (lib.destroy = none →
        (∀ h ∈ createdWindows (Init screenWitdh screenHeight lib w).calls,
          h ∈ destroyedWindows (Init screenWitdh screenHeight lib w).calls) ∧
        (Init screenWitdh screenHeight lib w).state.mWindow = none) ∧
      (created lib.createWindow = false →
        (Init screenWitdh screenHeight lib w).state = { w with mWindow := none }) ∧
      (created lib.createWindow = true →
        (Init screenWitdh screenHeight lib w).state.mMouseFocus = true ∧
        (Init screenWitdh screenHeight lib w).state.mKeyboardFocus = true) := by
  unfold Init
  rcases hw : lib.createWindow with e | win
  · simp [created, createdRenderers, createdWindows]
  · rcases hr : lib.createRenderer with e | ren
    · rcases hd : lib.destroy with _ | d
      · simp [created, createdRenderers, createdWindows, destroyedWindows]
      · simp [created, createdRenderers, createdWindows, destroyedWindows]
    · simp [hw, hr, created] at hfail

/-- Witness for `Init_create_failure_cleanup`: renderer creation fails on the
zero-value wrapper. -/
theorem Init_create_failure_cleanup_witness :
    (created libNoRenderer.createWindow = false ∨ created libNoRenderer.createRenderer = false) ∧
      (Init 640 480 libNoRenderer zeroValue).err ≠ none ∧
      (Init 640 480 libNoRenderer zeroValue).state.mWindow = none ∧
      destroyedWindows (Init 640 480 libNoRenderer zeroValue).calls = [1] :=
  ⟨by decide, (Init_create_failure_cleanup 640 480 libNoRenderer zeroValue (by decide)).1,
    ((Init_create_failure_cleanup 640 480 libNoRenderer zeroValue (by decide)).2.2.2.2.1 rfl).2,
    by decide⟩

/-- C2: if `Init` returns nil, both create calls succeeded and the handles stored
are the ones they returned, the mouse-focus, keyboard-focus and shown flags are
true, the dimensions are the screen constants and the identifier is the one
`GetID` returned. -/
theorem Init_nil_postcondition (screenWitdh screenHeight : Int) (lib : Lib) (w : LWindow)
    (h : (Init screenWitdh screenHeight lib w).err = none) :
    ∃ win ren, lib.createWindow = .ok win ∧ lib.createRenderer = .ok ren ∧
      (Init screenWitdh screenHeight lib w).state.mWindow = some win ∧
      (Init screenWitdh screenHeight lib w).state.mRenderer = some ren ∧
      (Init screenWitdh screenHeight lib w).state.mMouseFocus = true ∧
      (Init screenWitdh screenHeight lib w).state.mKeyboardFocus = true ∧
      (Init screenWitdh screenHeight lib w).state.mShown = true ∧
      (Init screenWitdh screenHeight lib w).state.mWidth = screenWitdh ∧
      (Init screenWitdh screenHeight lib w).state.mHeight = screenHeight ∧
      (Init screenWitdh screenHeight lib w).state.mWindowID = lib.getID.1 := by
  unfold Init at h ⊢
  rcases hw : lib.createWindow with e | win
  · simp [hw] at h
  · rcases hr : lib.createRenderer with e | ren
    · simp only [hw, hr] at h
      split at h <;> simp at h
    · rcases hg : lib.getID.2 with _ | e
      · simp [hw, hr, hg]
      · simp [hw, hr, hg] at h

/-- Witness for `Init_nil_postcondition`: every library call succeeds on the
zero-value wrapper. -/
theorem Init_nil_postcondition_witness :
    (Init 640 480 libOk zeroValue).err = none ∧
      ∃ win ren, libOk.createWindow = .ok win ∧ libOk.createRenderer = .ok ren ∧
        (Init 640 480 libOk zeroValue).state.mWindow = some win ∧
        (Init 640 480 libOk zeroValue).state.mRenderer = some ren ∧
        (Init 640 480 libOk zeroValue).state.mMouseFocus = true ∧
        (Init 640 480 libOk zeroValue).state.mKeyboardFocus = true ∧
        (Init 640 480 libOk zeroValue).state.mShown = true ∧
        (Init 640 480 libOk zeroValue).state.mWidth = 640 ∧
        (Init 640 480 libOk zeroValue).state.mHeight = 480 ∧
        (Init 640 480 libOk zeroValue).state.mWindowID = libOk.getID.1 :=
  ⟨by decide, Init_nil_postcondition 640 480 libOk zeroValue (by decide)⟩

/-! ### Free -/

/-- C3, as written, fails: `Free` on an opened window returns nil and the shown
flag is still true, so `IsShown` returns true. -/
theorem Free_keeps_shown :
    (Free libOk opened).err = none ∧ IsShown (Free libOk opened).state = true := by
  decide

/-- C3, amended: after `Free` returns nil the width and height are 0 and the
mouse-focus and keyboard-focus flags are false, so `MWidth` and `MHeight` return
0 and `HasMouseFocus` and `HasKeyboardFocus` return false; every other field,
the fullscreen, minimized and shown flags included, is unchanged. -/
theorem Free_nil_clears_focus_and_size (lib : Lib) (w : LWindow)
    (h : (Free lib w).err = none) :
    MWidth (Free lib w).state = 0 ∧ MHeight (Free lib w).state = 0 ∧
      HasMouseFocus (Free lib w).state = false ∧
      HasKeyboardFocus (Free lib w).state = false ∧
      (Free lib w).state =
        { w with mMouseFocus := false, mKeyboardFocus := false, mWidth := 0, mHeight := 0 } := by
  unfold Free at h ⊢
  rcases hw : w.mWindow with _ | win
  · simp [MWidth, MHeight, HasMouseFocus, HasKeyboardFocus]
  · rcases hd : lib.destroy with _ | e
    · simp [MWidth, MHeight, HasMouseFocus, HasKeyboardFocus]
    · simp [hw, hd] at h

/-- Witness for `Free_nil_clears_focus_and_size`: freeing an opened window. -/
theorem Free_nil_clears_focus_and_size_witness :
    (Free libOk opened).err = none ∧
      MWidth (Free libOk opened).state = 0 ∧ MHeight (Free libOk opened).state = 0 ∧
      HasMouseFocus (Free libOk opened).state = false ∧
      HasKeyboardFocus (Free libOk opened).state = false ∧
      (Free libOk opened).state =
        { opened with mMouseFocus := false, mKeyboardFocus := false, mWidth := 0,
                      mHeight := 0 } :=
  ⟨by decide, Free_nil_clears_focus_and_size libOk opened (by decide)⟩

/-! ### HandleEvent -/

/-- C4: on a key-down event of the Return key, whatever its window, when
`SetFullscreen` succeeds `HandleEvent` returns nil, the fullscreen flag is
negated, the minimized flag becomes false on entering fullscreen and is kept on
leaving it, and every other field is unchanged. -/
theorem HandleEvent_return_key_toggles_fullscreen (lib : Lib) (w : LWindow) (wid : Nat)
    (hok : lib.setFullscreen = none) :
    (HandleEvent lib w (.keyDown wid K_RETURN)).err = none ∧
      (HandleEvent lib w (.keyDown wid K_RETURN)).state.mFullScreen = !w.mFullScreen ∧
      (w.mFullScreen = false →
        (HandleEvent lib w (.keyDown wid K_RETURN)).state.mMinimized = false) ∧
      (w.mFullScreen = true →
        (HandleEvent lib w (.keyDown wid K_RETURN)).state.mMinimized = w.mMinimized) ∧
      (HandleEvent lib w (.keyDown wid K_RETURN)).state =
        { w with mFullScreen := !w.mFullScreen,
                 mMinimized := (HandleEvent lib w (.keyDown wid K_RETURN)).state.mMinimized } := by
  unfold HandleEvent
  cases hf : w.mFullScreen <;> simp [hok, hf]

/-- Witness for `HandleEvent_return_key_toggles_fullscreen`: an opened,
minimized window enters fullscreen on a Return key pressed in window 3. -/
theorem HandleEvent_return_key_toggles_fullscreen_witness :
    libOk.setFullscreen = none ∧
      (HandleEvent libOk { opened with mMinimized := true } (.keyDown 3 K_RETURN)).err = none ∧
      (HandleEvent libOk { opened with mMinimized := true } (.keyDown 3 K_RETURN)).state
        = { opened with mFullScreen := true, mMinimized := false } :=
  ⟨rfl,
    (HandleEvent_return_key_toggles_fullscreen libOk { opened with mMinimized := true } 3 rfl).1,
    by decide⟩

/-- The wrapper after `HandleEvent` on an event of its own window is the one the
switch statement leaves. -/
theorem HandleEvent_window_own_state (lib : Lib) (w : LWindow) (ev : Nat) (data1 data2 : Int) :
    (HandleEvent lib w (.window w.mWindowID ev data1 data2)).state
      = (windowSwitch w ev data1 data2).1 := by
  simp only [HandleEvent, if_true]
  rcases windowSwitch w ev data1 data2 with ⟨w1, uc, calls⟩
  cases uc <;> rfl

/-- The method `HandleEvent` returns nil on an event of its own window. -/
theorem HandleEvent_window_own_err (lib : Lib) (w : LWindow) (ev : Nat) (data1 data2 : Int) :
    (HandleEvent lib w (.window w.mWindowID ev data1 data2)).err = none := by
  simp only [HandleEvent, if_true]
  rcases windowSwitch w ev data1 data2 with ⟨w1, uc, calls⟩
  cases uc <;> rfl

/-- The native calls of `HandleEvent` on an event of its own window: those of
the switch statement, then `SetTitle` when the caption update flag is set. -/
theorem HandleEvent_window_own_calls (lib : Lib) (w : LWindow) (ev : Nat) (data1 data2 : Int) :
    (HandleEvent lib w (.window w.mWindowID ev data1 data2)).calls
      = (windowSwitch w ev data1 data2).2.2 ++
        (if (windowSwitch w ev data1 data2).2.1 then
          [Call.setTitle (windowSwitch w ev data1 data2).1.mWindow
            (caption (windowSwitch w ev data1 data2).1)]
         else []) := by
  simp only [HandleEvent, if_true]
  rcases windowSwitch w ev data1 data2 with ⟨w1, uc, calls⟩
  cases uc <;> simp

/-- C7: a window event carrying the wrapper's own window identifier makes
`HandleEvent` return nil and update exactly the fields its kind names; for every
other kind all fields are unchanged. -/
theorem HandleEvent_own_window_event (lib : Lib) (w : LWindow) (wid ev : Nat) (data1 data2 : Int)
    (hid : wid = w.mWindowID) :
    (HandleEvent lib w (.window wid ev data1 data2)).err = none ∧
      (ev = WINDOWEVENT_SHOWN →
        (HandleEvent lib w (.window wid ev data1 data2)).state = { w with mShown := true }) ∧
      (ev = WINDOWEVENT_HIDDEN →
        (HandleEvent lib w (.window wid ev data1 data2)).state = { w with mShown := false }) ∧
      (ev = WINDOWEVENT_SIZE_CHANGED →
        (HandleEvent lib w (.window wid ev data1 data2)).state
          = { w with mWidth := data1, mHeight := data2 }) ∧
      (ev = WINDOWEVENT_ENTER →
        (HandleEvent lib w (.window wid ev data1 data2)).state = { w with mMouseFocus := true }) ∧
      (ev = WINDOWEVENT_LEAVE →
        (HandleEvent lib w (.window wid ev data1 data2)).state
          = { w with mMouseFocus := false }) ∧
      (ev = WINDOWEVENT_FOCUS_GAINED →
        (HandleEvent lib w (.window wid ev data1 data2)).state
          = { w with mKeyboardFocus := true }) ∧
      (ev = WINDOWEVENT_FOCUS_LOST →
        (HandleEvent lib w (.window wid ev data1 data2)).state
          = { w with mKeyboardFocus := false }) ∧
      (ev = WINDOWEVENT_MINIMIZED →
        (HandleEvent lib w (.window wid ev data1 data2)).state = { w with mMinimized := true }) ∧
      (ev = WINDOWEVENT_MAXIMIZED →
        (HandleEvent lib w (.window wid ev data1 data2)).state
          = { w with mMinimized := false }) ∧
      (ev = WINDOWEVENT_RESTORED →
        (HandleEvent lib w (.window wid ev data1 data2)).state
          = { w with mMinimized := false }) ∧
      (ev ≠ WINDOWEVENT_SHOWN ∧ ev ≠ WINDOWEVENT_HIDDEN ∧ ev ≠ WINDOWEVENT_SIZE_CHANGED ∧
          ev ≠ WINDOWEVENT_ENTER ∧ ev ≠ WINDOWEVENT_LEAVE ∧ ev ≠ WINDOWEVENT_FOCUS_GAINED ∧
          ev ≠ WINDOWEVENT_FOCUS_LOST ∧ ev ≠ WINDOWEVENT_MINIMIZED ∧
          ev ≠ WINDOWEVENT_MAXIMIZED ∧ ev ≠ WINDOWEVENT_RESTORED →
        (HandleEvent lib w (.window wid ev data1 data2)).state = w) := by
  subst hid
  rw [HandleEvent_window_own_state, HandleEvent_window_own_err]
  refine ⟨rfl, ?_, ?_, ?_, ?_, ?_, ?_, ?_, ?_, ?_, ?_, ?_⟩
  all_goals first
    | (intro h; subst h
       simp [windowSwitch, WINDOWEVENT_SHOWN, WINDOWEVENT_HIDDEN, WINDOWEVENT_EXPOSED,
         WINDOWEVENT_SIZE_CHANGED, WINDOWEVENT_MINIMIZED, WINDOWEVENT_MAXIMIZED,
         WINDOWEVENT_RESTORED, WINDOWEVENT_ENTER, WINDOWEVENT_LEAVE, WINDOWEVENT_FOCUS_GAINED,
         WINDOWEVENT_FOCUS_LOST, WINDOWEVENT_CLOSE])
    | (rintro ⟨h1, h2, h3, h4, h5, h6, h7, h8, h9, h10⟩
       simp only [windowSwitch, if_neg h1, if_neg h2, if_neg h3, if_neg h4,
         if_neg h5, if_neg h6, if_neg h7, if_neg h8, if_neg h9, if_neg h10]
       repeat' split
       all_goals rfl)

/-- Witness for `HandleEvent_own_window_event`: window 7 is resized to 800 by 600. -/
theorem HandleEvent_own_window_event_witness :
    (7 : Nat) = opened.mWindowID ∧
      (HandleEvent libOk opened (.window 7 WINDOWEVENT_SIZE_CHANGED 800 600)).err = none ∧
      (HandleEvent libOk opened (.window 7 WINDOWEVENT_SIZE_CHANGED 800 600)).state
        = { opened with mWidth := 800, mHeight := 600 } :=
  ⟨rfl,
    (HandleEvent_own_window_event libOk opened 7 WINDOWEVENT_SIZE_CHANGED 800 600 rfl).1,
    (HandleEvent_own_window_event libOk opened 7 WINDOWEVENT_SIZE_CHANGED 800 600 rfl).2.2.2.1 rfl⟩

/-- The titles set by two lists of calls, one after the other. -/
theorem titlesSet_append (a b : List Call) : titlesSet (a ++ b) = titlesSet a ++ titlesSet b := by
  simp [titlesSet, List.filterMap_append]

/-- The switch statement itself never sets a title. -/
theorem windowSwitch_sets_no_title (w : LWindow) (ev : Nat) (data1 data2 : Int) :
    titlesSet (windowSwitch w ev data1 data2).2.2 = [] := by
  unfold windowSwitch
  simp only [apply_ite (fun t : LWindow × Bool × List Call => titlesSet t.2.2)]
  simp [titlesSet]

/-- The switch statement leaves the caption update flag unset on every kind but
ENTER, LEAVE, FOCUS_GAINED and FOCUS_LOST. -/
theorem windowSwitch_flag_off (w : LWindow) (ev : Nat) (data1 data2 : Int)
    (h1 : ev ≠ WINDOWEVENT_ENTER) (h2 : ev ≠ WINDOWEVENT_LEAVE)
    (h3 : ev ≠ WINDOWEVENT_FOCUS_GAINED) (h4 : ev ≠ WINDOWEVENT_FOCUS_LOST) :
    (windowSwitch w ev data1 data2).2.1 = false := by
  simp only [windowSwitch, if_neg h1, if_neg h2, if_neg h3, if_neg h4]
  repeat' split
  all_goals rfl

/-- The caption is the fixed text followed by the two flags, nothing between. -/
theorem caption_eq (w : LWindow) :
    caption w = "SDL Tutorial - MouseFocus:" ++ (if w.mMouseFocus then "On" else "Off")
      ++ (if w.mKeyboardFocus then "On" else "Off") := by
  unfold caption
  cases w.mMouseFocus <;> cases w.mKeyboardFocus <;> decide

/-- C8: `HandleEvent` sets the window title exactly when the event is a window
event of its own window of kind ENTER, LEAVE, FOCUS_GAINED or FOCUS_LOST; it
then sets it once, on the wrapper's window, to "SDL Tutorial - MouseFocus:"
followed by "On" or "Off" for the updated mouse-focus flag and "On" or "Off" for
the updated keyboard-focus flag, with nothing in between. -/
theorem HandleEvent_title (lib : Lib) (w : LWindow) (e : Event) :
    ((∃ ev data1 data2, e = .window w.mWindowID ev data1 data2 ∧
          (ev = WINDOWEVENT_ENTER ∨ ev = WINDOWEVENT_LEAVE ∨ ev = WINDOWEVENT_FOCUS_GAINED ∨
            ev = WINDOWEVENT_FOCUS_LOST)) →
        titlesSet (HandleEvent lib w e).calls =
          [(w.mWindow,
            "SDL Tutorial - MouseFocus:"
              ++ (if (HandleEvent lib w e).state.mMouseFocus then "On" else "Off")
              ++ (if (HandleEvent lib w e).state.mKeyboardFocus then "On" else "Off"))]) ∧
      ((¬ ∃ ev data1 data2, e = .window w.mWindowID ev data1 data2 ∧
          (ev = WINDOWEVENT_ENTER ∨ ev = WINDOWEVENT_LEAVE ∨ ev = WINDOWEVENT_FOCUS_GAINED ∨
            ev = WINDOWEVENT_FOCUS_LOST)) →
        titlesSet (HandleEvent lib w e).calls = []) := by
  constructor
  · rintro ⟨ev, data1, data2, rfl, h⟩
    rw [HandleEvent_window_own_state, HandleEvent_window_own_calls, ← caption_eq]
    rcases h with rfl | rfl | rfl | rfl <;>
      simp [windowSwitch, titlesSet, WINDOWEVENT_SHOWN, WINDOWEVENT_HIDDEN, WINDOWEVENT_EXPOSED,
        WINDOWEVENT_SIZE_CHANGED, WINDOWEVENT_ENTER, WINDOWEVENT_LEAVE,
        WINDOWEVENT_FOCUS_GAINED, WINDOWEVENT_FOCUS_LOST]
  · intro hne
    cases e with
    | window wid ev data1 data2 =>
      by_cases hid : wid = w.mWindowID
      · subst hid
        have h1 : ev ≠ WINDOWEVENT_ENTER := fun h => hne ⟨ev, data1, data2, rfl, Or.inl h⟩
        have h2 : ev ≠ WINDOWEVENT_LEAVE := fun h => hne ⟨ev, data1, data2, rfl, Or.inr (Or.inl h)⟩
        have h3 : ev ≠ WINDOWEVENT_FOCUS_GAINED :=
          fun h => hne ⟨ev, data1, data2, rfl, Or.inr (Or.inr (Or.inl h))⟩
        have h4 : ev ≠ WINDOWEVENT_FOCUS_LOST :=
          fun h => hne ⟨ev, data1, data2, rfl, Or.inr (Or.inr (Or.inr h))⟩
        rw [HandleEvent_window_own_calls, windowSwitch_flag_off w ev data1 data2 h1 h2 h3 h4]
        simp [titlesSet_append, windowSwitch_sets_no_title]
      · simp [HandleEvent, hid, titlesSet]
    | keyDown wid sym =>
      unfold HandleEvent
      by_cases hs : sym = K_RETURN
      · cases w.mFullScreen <;> cases lib.setFullscreen <;> simp [hs, titlesSet]
      · simp [hs, titlesSet]
    | keyUp wid sym => simp [HandleEvent, titlesSet]
    | other => simp [HandleEvent, titlesSet]

/-- Witness for `HandleEvent_title`: the mouse leaves window 7, whose keyboard
focus is on, and the title becomes "SDL Tutorial - MouseFocus:OffOn"; a resize of
the same window sets no title. -/
theorem HandleEvent_title_witness :
    titlesSet (HandleEvent libOk opened (.window 7 WINDOWEVENT_LEAVE 0 0)).calls
        = [(some 1, "SDL Tutorial - MouseFocus:OffOn")] ∧
      titlesSet (HandleEvent libOk opened (.window 7 WINDOWEVENT_SIZE_CHANGED 800 600)).calls
        = [] :=
  ⟨(HandleEvent_title libOk opened (.window 7 WINDOWEVENT_LEAVE 0 0)).1
      ⟨WINDOWEVENT_LEAVE, 0, 0, rfl, Or.inr (Or.inl rfl)⟩,
    (HandleEvent_title libOk opened (.window 7 WINDOWEVENT_SIZE_CHANGED 800 600)).2
      (by
        rintro ⟨ev, data1, data2, h, hev⟩
        injection h with _ h2 _ _
        subst h2
        revert hev
        decide)⟩

/-- C9: an event that is neither a window event of the wrapper's own window nor
a key-down event of the Return key makes `HandleEvent` return nil, make no
native call and leave the wrapper as it was. -/
theorem HandleEvent_unrelated_event (lib : Lib) (w : LWindow) (e : Event)
    (hwin : ∀ ev data1 data2, e ≠ .window w.mWindowID ev data1 data2)
    (hkey : ∀ wid, e ≠ .keyDown wid K_RETURN) :
    HandleEvent lib w e = { state := w, err := none, calls := [] } := by
  cases e with
  | window wid ev data1 data2 =>
    have hid : wid ≠ w.mWindowID := fun h => hwin ev data1 data2 (by rw [h])
    simp [HandleEvent, hid]
  | keyDown wid sym =>
    have hs : sym ≠ K_RETURN := fun h => hkey wid (by rw [h])
    simp [HandleEvent, hs]
  | keyUp wid sym => rfl
  | other => rfl

/-- Witness for `HandleEvent_unrelated_event`: a LEAVE event of window 8 reaches
the wrapper of window 7. -/
theorem HandleEvent_unrelated_event_witness :
    (∀ ev data1 data2, Event.window 8 WINDOWEVENT_LEAVE 0 0 ≠ .window opened.mWindowID ev data1 data2) ∧
      (∀ wid, Event.window 8 WINDOWEVENT_LEAVE 0 0 ≠ .keyDown wid K_RETURN) ∧
      HandleEvent libOk opened (.window 8 WINDOWEVENT_LEAVE 0 0)
        = { state := opened, err := none, calls := [] } :=
  ⟨fun _ _ _ h => by simp [opened] at h, fun _ h => by simp at h,
    HandleEvent_unrelated_event libOk opened (.window 8 WINDOWEVENT_LEAVE 0 0)
      (fun _ _ _ h => by simp [opened] at h) (fun _ h => by simp at h)⟩

/-! ### Errors -/

/-- C10: when `HandleEvent`, `Render` or `Free` returns an error, the wrapper is
exactly as it was before the call. -/
theorem error_leaves_wrapper_unchanged (lib : Lib) (w : LWindow) (e : Event) :
    ((HandleEvent lib w e).err ≠ none → (HandleEvent lib w e).state = w) ∧
      ((Render lib w).err ≠ none → (Render lib w).state = w) ∧
      ((Free lib w).err ≠ none → (Free lib w).state = w) := by
  refine ⟨?_, ?_, ?_⟩
  · cases e with
    | window wid ev data1 data2 =>
      by_cases hid : wid = w.mWindowID
      · subst hid
        intro h
        exact absurd (HandleEvent_window_own_err lib w ev data1 data2) h
      · simp [HandleEvent, hid]
    | keyDown wid sym =>
      unfold HandleEvent
      by_cases hs : sym = K_RETURN
      · cases w.mFullScreen <;> cases lib.setFullscreen <;> simp [hs]
      · simp [hs]
    | keyUp wid sym => simp [HandleEvent]
    | other => simp [HandleEvent]
  · intro _
    unfold Render
    cases w.mMinimized <;> cases lib.setDrawColor <;> cases lib.clear <;> rfl
  · unfold Free
    cases w.mWindow <;> cases lib.destroy <;> simp

/-- Witness for `error_leaves_wrapper_unchanged`: a failed fullscreen toggle, a
failed `Clear` and a failed `Destroy` each return an error and leave an opened
window as it was. -/
theorem error_leaves_wrapper_unchanged_witness :
    ((HandleEvent libNoFullscreen opened (.keyDown 7 K_RETURN)).err ≠ none ∧
        (HandleEvent libNoFullscreen opened (.keyDown 7 K_RETURN)).state = opened) ∧
      ((Render libNoClear opened).err ≠ none ∧ (Render libNoClear opened).state = opened) ∧
      ((Free libNoDestroy opened).err ≠ none ∧ (Free libNoDestroy opened).state = opened) :=
  ⟨⟨by decide,
      (error_leaves_wrapper_unchanged libNoFullscreen opened (.keyDown 7 K_RETURN)).1 (by decide)⟩,
    ⟨by decide,
      (error_leaves_wrapper_unchanged libNoClear opened (.keyDown 7 K_RETURN)).2.1 (by decide)⟩,
    ⟨by decide,
      (error_leaves_wrapper_unchanged libNoDestroy opened (.keyDown 7 K_RETURN)).2.2 (by decide)⟩⟩

/-- C6, the failing input: `Render` on an opened window whose `Clear` fails with
"Invalid renderer" returns the error "could not clear renderer", which does not
contain the text of the library error. -/
theorem Render_clear_error_not_wrapped :
    libNoClear.clear = some "Invalid renderer" ∧
      (Render libNoClear opened).err = some "could not clear renderer" ∧
      ¬ wraps "could not clear renderer" "Invalid renderer" := by
  decide

/-- The method `Init` drops the error of its `SetDrawColor` call: with every other
call succeeding it returns nil. -/
theorem Init_ignores_draw_color_error :
    libNoDrawColor.setDrawColor = some "Invalid renderer" ∧
      (Init 640 480 libNoDrawColor zeroValue).err = none := by
  decide

set_option maxRecDepth 8000 in
/-- When the cleanup `Destroy` of `Init` fails, the returned message carries the
text of the renderer-creation error, not that of the `Destroy` error. -/
theorem Init_destroy_error_not_wrapped :
    ({ libNoRenderer with destroy := some "Invalid window" } : Lib).destroy
        = some "Invalid window" ∧
      (Init 640 480 { libNoRenderer with destroy := some "Invalid window" } zeroValue).err
        = some "could not destroy window after failing renderer creation: no renderer" ∧
      ¬ wraps "could not destroy window after failing renderer creation: no renderer"
          "Invalid window" := by
  decide

/-- When `GetID` fails, `Init` returns an error and keeps both handles; nothing
is destroyed. -/
theorem Init_getID_failure_keeps_handles :
    (Init 640 480 libNoID zeroValue).err = some "could not grab window ID: Invalid window" ∧
      (Init 640 480 libNoID zeroValue).state.mWindow = some 1 ∧
      (Init 640 480 libNoID zeroValue).state.mRenderer = some 2 ∧
      destroyedWindows (Init 640 480 libNoID zeroValue).calls = [] := by
  decide

/-- The error messages that do wrap: each is the fixed text followed by the
text of the library error. -/
theorem wraps_Errorf (msg libErr : String) : wraps (Errorf msg libErr) libErr := by
  unfold wraps Errorf
  rw [String.data_append]
  exact (List.suffix_append msg.data libErr.data).isInfix

/-! ### The handle invariant -/

/-- The switch statement of `HandleEvent` keeps both handles. -/
theorem windowSwitch_handles (w : LWindow) (ev : Nat) (data1 data2 : Int) :
    (windowSwitch w ev data1 data2).1.mWindow = w.mWindow ∧
      (windowSwitch w ev data1 data2).1.mRenderer = w.mRenderer := by
  unfold windowSwitch
  simp only [apply_ite (fun t : LWindow × Bool × List Call => t.1.mWindow),
    apply_ite (fun t : LWindow × Bool × List Call => t.1.mRenderer)]
  simp

/-- The method `HandleEvent` keeps both handles. -/
theorem HandleEvent_handles (lib : Lib) (w : LWindow) (e : Event) :
    (HandleEvent lib w e).state.mWindow = w.mWindow ∧
      (HandleEvent lib w e).state.mRenderer = w.mRenderer := by
  cases e with
  | window wid ev data1 data2 =>
    by_cases hid : wid = w.mWindowID
    · subst hid
      rw [HandleEvent_window_own_state]
      exact windowSwitch_handles w ev data1 data2
    · simp [HandleEvent, hid]
  | keyDown wid sym =>
    unfold HandleEvent
    by_cases hs : sym = K_RETURN
    · cases w.mFullScreen <;> cases lib.setFullscreen <;> simp [hs]
    · simp [hs]
  | keyUp wid sym => simp [HandleEvent]
  | other => simp [HandleEvent]

/-- One guarded call keeps the invariant that a renderer needs a window. -/
theorem step_keeps_invariant (screenWitdh screenHeight : Int) (w : LWindow) (op : Op)
    (hinv : w.mRenderer ≠ none → w.mWindow ≠ none) (hg : initGuard w op = true) :
    (step screenWitdh screenHeight w op).mRenderer ≠ none →
      (step screenWitdh screenHeight w op).mWindow ≠ none := by
  cases op with
  | init lib =>
    simp only [step, Init]
    rcases hw : lib.createWindow with e | win
    · have hr : w.mRenderer = none := by
        simpa [initGuard, hw, created] using hg
      simp [hr]
    · rcases hr : lib.createRenderer with e | ren
      · cases lib.destroy <;> simp
      · cases lib.getID.2 <;> simp
  | handleEvent lib e =>
    simp only [step]
    rw [(HandleEvent_handles lib w e).1, (HandleEvent_handles lib w e).2]
    exact hinv
  | render lib =>
    simp only [step, Render]
    cases w.mMinimized <;> cases lib.setDrawColor <;> cases lib.clear <;> exact hinv
  | focus => exact hinv
  | free lib =>
    simp only [step, Free]
    cases hw : w.mWindow <;> cases lib.destroy <;> simp_all

/-- A guarded sequence of calls keeps the invariant. -/
theorem run_keeps_invariant (screenWitdh screenHeight : Int) (ops : List Op) :
    ∀ w : LWindow, (w.mRenderer ≠ none → w.mWindow ≠ none) →
      guarded screenWitdh screenHeight w ops = true →
      ((run screenWitdh screenHeight w ops).mRenderer ≠ none →
        (run screenWitdh screenHeight w ops).mWindow ≠ none) := by
  induction ops with
  | nil => intro w hinv _; exact hinv
  | cons op rest ih =>
    intro w hinv hg
    simp only [guarded, Bool.and_eq_true] at hg
    exact ih (step screenWitdh screenHeight w op)
      (step_keeps_invariant screenWitdh screenHeight w op hinv hg.1) hg.2

/-- C5, as written, fails: a successful `Init` followed by an `Init` whose window
creation fails leaves a renderer handle and a nil window handle. -/
theorem reInit_breaks_handle_invariant :
    (run 640 480 zeroValue [.init libOk, .init libNoWindow]).mRenderer = some 2 ∧
      (run 640 480 zeroValue [.init libOk, .init libNoWindow]).mWindow = none := by
  decide

/-- C5, amended: in every state reached from the zero-value wrapper by a
sequence of `Init`, `HandleEvent`, `Render`, `Focus` and `Free` calls in which no
`Init` whose window creation fails is made on a wrapper that holds a renderer,
the renderer handle is non-nil only if the window handle is non-nil. -/
theorem guarded_run_handle_invariant (screenWitdh screenHeight : Int) (ops : List Op)
    (hg : guarded screenWitdh screenHeight zeroValue ops = true) :
    (run screenWitdh screenHeight zeroValue ops).mRenderer ≠ none →
      (run screenWitdh screenHeight zeroValue ops).mWindow ≠ none :=
  run_keeps_invariant screenWitdh screenHeight ops zeroValue (fun h => absurd rfl h) hg

/-- Witness for `guarded_run_handle_invariant`: a failed `Init`, a successful
one, an event, a frame, a focus request, a second successful `Init` and a `Free`. -/
theorem guarded_run_handle_invariant_witness :
    guarded 640 480 zeroValue
        [.init libNoRenderer, .init libOk, .handleEvent libOk (.window 7 WINDOWEVENT_LEAVE 0 0),
          .render libOk, .focus, .init libOk, .free libOk] = true ∧
      (run 640 480 zeroValue
        [.init libNoRenderer, .init libOk, .handleEvent libOk (.window 7 WINDOWEVENT_LEAVE 0 0),
          .render libOk, .focus, .init libOk, .free libOk]).mRenderer ≠ none ∧
      (run 640 480 zeroValue
        [.init libNoRenderer, .init libOk, .handleEvent libOk (.window 7 WINDOWEVENT_LEAVE 0 0),
          .render libOk, .focus, .init libOk, .free libOk]).mWindow ≠ none :=
  ⟨by decide, by decide,
    guarded_run_handle_invariant 640 480
      [.init libNoRenderer, .init libOk, .handleEvent libOk (.window 7 WINDOWEVENT_LEAVE 0 0),
        .render libOk, .focus, .init libOk, .free libOk] (by decide) (by decide)⟩

end LWindow36
